import Mathlib

/-!
Shallow embedding of the resource-management subsystem of the ffplay0.1
repository (memory pool, object pool, packet recycler, multi-tier cache,
allocation tracker), together with theorems settling the specification
claims about it.

Machine integers (`size_t`) are modelled as `Nat`: none of the traced
scenarios approach overflow, and all counters in the source only grow by
small increments.  `double` arithmetic on statistics ratios is modelled by
exact rational arithmetic (`ℚ`).  Pointers are modelled as natural-number
addresses, with `0` playing the role of `nullptr`.  Locks are dropped: the
embedding is the sequential semantics of each operation, which is what the
functional-correctness claims quantify over.
-/

namespace ObjectPool

/-- Configuration of `ObjectPool<T>` (object_pool.h, `struct Config`). -/
structure Config where
  initial_size : Nat
  max_size : Nat
  auto_expand : Bool
  enable_statistics : Bool
deriving DecidableEq

/-- Default config values from the source (16 / 128 / true / true). -/
def Config.default : Config :=
  ⟨16, 128, true, true⟩

/-- Statistics counters of `ObjectPool<T>` (object_pool.h, `struct Statistics`). -/
structure Statistics where
  total_created : Nat
  total_acquired : Nat
  total_released : Nat
  current_in_use : Nat
  current_available : Nat
  peak_usage : Nat
deriving DecidableEq

def Statistics.init : Statistics :=
  ⟨0, 0, 0, 0, 0, 0⟩

/--
State of one `ObjectPool<T>`.  Objects are identified by the order the
factory produced them (`next_id` models the factory, which in the source
always succeeds); `available_objects` is the `std::queue` with its front
first; `reset_calls` is an observation counter for the number of times the
configured reset function has been invoked (the source calls it through
`resetObject`).
-/
structure State where
  config : Config
  stats : Statistics
  available_objects : List Nat
  next_id : Nat
  reset_calls : Nat
  shutdown : Bool
deriving DecidableEq

/-- `ObjectPool<T>::createObject` (object_pool.h:322-331). -/
def createObject (s : State) : Nat × State :=
  let obj := s.next_id
  let stats :=
    if s.config.enable_statistics then
      { s.stats with total_created := s.stats.total_created + 1 }
    else s.stats
  (obj, { s with next_id := s.next_id + 1, stats := stats })

/-- `ObjectPool<T>::warmup` (object_pool.h:289-299): pre-creates `count`
objects and pushes them on the available queue. -/
def warmup (s : State) : Nat → State
  | 0 => s
  | n + 1 =>
    let c := createObject s
    let s2 := { c.2 with
      available_objects := c.2.available_objects ++ [c.1],
      stats := { c.2.stats with
        current_available := c.2.stats.current_available + 1 } }
    warmup s2 n

/-- Construction (object_pool.h:210-224): store the config and pre-warm
`initial_size` objects. -/
def init (cfg : Config) : State :=
  warmup ⟨cfg, Statistics.init, [], 1, 0, false⟩ cfg.initial_size

/-- `ObjectPool<T>::acquire` (object_pool.h:233-275).  Returns the borrowed
object (the payload of the returned `PooledObject` handle) or `none` for a
null handle. -/
def acquire (s : State) : Option Nat × State :=
  if s.shutdown then (none, s)
  else
    let popped : Option Nat × State :=
      match s.available_objects with
      | [] => (none, s)
      | obj :: rest =>
        (some obj, { s with
          available_objects := rest,
          stats := { s.stats with
            current_available := s.stats.current_available - 1 } })
    let created : Option Nat × State :=
      match popped.1 with
      | some o => (some o, popped.2)
      | none =>
        if s.config.auto_expand ∧ s.stats.current_in_use < s.config.max_size then
          let c := createObject popped.2
          (some c.1, c.2)
        else (none, popped.2)
    match created with
    | (none, s1) => (none, s1)
    | (some obj, s1) =>
      let s2 :=
        if s1.config.enable_statistics then
          let usage := s1.stats.current_in_use + 1
          { s1 with stats := { s1.stats with
            total_acquired := s1.stats.total_acquired + 1,
            current_in_use := usage,
            peak_usage := max s1.stats.peak_usage usage } }
        else s1
      (some obj, s2)

/-- `ObjectPool<T>::releaseObject` (object_pool.h:341-365), reached from the
`PooledObject` destructor: reset the object, return it to the queue when the
queue is below `max_size` (otherwise it is destroyed), update counters. -/
def releaseObject (s : State) (obj : Nat) : State :=
  if s.shutdown then s
  else
    let s1 := { s with reset_calls := s.reset_calls + 1 }
    let s2 :=
      if s1.available_objects.length < s1.config.max_size then
        { s1 with
          available_objects := s1.available_objects ++ [obj],
          stats := { s1.stats with
            current_available := s1.stats.current_available + 1 } }
      else s1
    if s2.config.enable_statistics then
      { s2 with stats := { s2.stats with
        total_released := s2.stats.total_released + 1,
        current_in_use := s2.stats.current_in_use - 1 } }
    else s2

/-- `ObjectPool<T>::clear` (object_pool.h:302-310). -/
def clear (s : State) : State :=
  { s with
    available_objects := [],
    stats := { s.stats with current_available := 0 } }

/-- The client-visible operations of an `ObjectPool`. -/
inductive Op where
  | acquireOp : Op
  | releaseOp : Nat → Op
  | warmupOp : Nat → Op
  | clearOp : Op
deriving DecidableEq

/-- Apply one operation to the pool state (the object returned by
`acquire` is dropped; `release` is the handle-destructor path). -/
def step (s : State) : Op → State
  | Op.acquireOp => (acquire s).2
  | Op.releaseOp obj => releaseObject s obj
  | Op.warmupOp n => warmup s n
  | Op.clearOp => clear s

/-- Run a list of operations from a freshly constructed pool. -/
def run (cfg : Config) (ops : List Op) : State :=
  ops.foldl step (init cfg)

/-- The counter/queue agreement invariant of claim C10. -/
def availInv (s : State) : Prop :=
  s.stats.current_available = s.available_objects.length

theorem createObject_preserves (s : State) (h : availInv s) :
    availInv (createObject s).2 := by
  unfold availInv createObject at *
  cases hs : s.config.enable_statistics <;> simp [hs] <;> exact h

theorem warmup_preserves (n : Nat) : ∀ (s : State), availInv s → availInv (warmup s n) := by
  induction n with
  | zero => intro s h; simpa [warmup] using h
  | succ k ih =>
    intro s h
    unfold warmup
    apply ih
    unfold availInv at *
    cases hs : s.config.enable_statistics <;> simp [createObject, hs, h]

theorem acquire_preserves (s : State) (h : availInv s) : availInv (acquire s).2 := by
  unfold availInv acquire at *
  by_cases hsd : s.shutdown
  · simp [hsd, h]
  · cases hav : s.available_objects with
    | nil =>
      by_cases hexp : s.config.auto_expand ∧ s.stats.current_in_use < s.config.max_size
      · unfold createObject
        cases hs : s.config.enable_statistics <;>
          simp [hsd, hav, hexp, hs, h, hav ▸ h]
      · simp [hsd, hav, hexp, h, hav ▸ h]
    | cons a rest =>
      cases hs : s.config.enable_statistics <;>
        simp [hsd, hav, hs] <;>
        · rw [h, hav]; simp

theorem releaseObject_preserves (s : State) (obj : Nat) (h : availInv s) :
    availInv (releaseObject s obj) := by
  unfold availInv releaseObject at *
  by_cases hsd : s.shutdown
  · simp [hsd, h]
  · by_cases hlen : s.available_objects.length < s.config.max_size <;>
      cases hs : s.config.enable_statistics <;>
      simp [hsd, hlen, hs, h]

theorem step_preserves (s : State) (op : Op) (h : availInv s) : availInv (step s op) := by
  cases op with
  | acquireOp => exact acquire_preserves s h
  | releaseOp obj => exact releaseObject_preserves s obj h
  | warmupOp n => exact warmup_preserves n s h
  | clearOp => show availInv (clear s); unfold availInv clear; simp

theorem foldl_step_preserves (ops : List Op) :
    ∀ (s : State), availInv s → availInv (ops.foldl step s) := by
  induction ops with
  | nil => intro s h; simpa using h
  | cons op rest ih =>
    intro s h
    rw [List.foldl_cons]
    exact ih (step s op) (step_preserves s op h)

/-- C10: after construction (with warmup) followed by any sequence of
acquire / release / warmup / clear operations, the `current_available`
statistics counter equals the length of the internal available-object
queue. -/
theorem current_available_eq_queue_length (cfg : Config) (ops : List Op) :
    availInv (run cfg ops) := by
  unfold run
  apply foldl_step_preserves
  unfold init
  apply warmup_preserves
  unfold availInv
  rfl

theorem acquire_config_eq (s : State) : (acquire s).2.config = s.config := by
  unfold acquire
  by_cases hsd : s.shutdown
  · simp [hsd]
  · cases hav : s.available_objects with
    | nil =>
      by_cases hexp : s.config.auto_expand = true ∧ s.stats.current_in_use < s.config.max_size
      · cases hs : s.config.enable_statistics <;> simp [hsd, hav, hexp, hs, createObject]
      · simp [hsd, hav, hexp]
    | cons a rest =>
      cases hs : s.config.enable_statistics <;> simp [hsd, hav, hs]

theorem acquire_shutdown_eq (s : State) : (acquire s).2.shutdown = s.shutdown := by
  unfold acquire
  by_cases hsd : s.shutdown
  · simp [hsd]
  · cases hav : s.available_objects with
    | nil =>
      by_cases hexp : s.config.auto_expand = true ∧ s.stats.current_in_use < s.config.max_size
      · cases hs : s.config.enable_statistics <;> simp [hsd, hav, hexp, hs, createObject]
      · simp [hsd, hav, hexp]
    | cons a rest =>
      cases hs : s.config.enable_statistics <;> simp [hsd, hav, hs]

theorem acquire_from_nonempty (s : State) (hsd : s.shutdown = false)
    (hav : s.available_objects ≠ []) :
    (acquire s).1.isSome ∧ (acquire s).2.stats.total_created = s.stats.total_created := by
  unfold acquire
  cases hav2 : s.available_objects with
  | nil => exact absurd hav2 hav
  | cons a rest =>
    cases hs : s.config.enable_statistics <;> simp [hsd, hav2, hs]

theorem releaseObject_roomy (s : State) (obj : Nat) (hsd : s.shutdown = false)
    (hlen : s.available_objects.length < s.config.max_size) :
    (releaseObject s obj).available_objects = s.available_objects ++ [obj] ∧
    (releaseObject s obj).shutdown = s.shutdown ∧
    (releaseObject s obj).config = s.config ∧
    (releaseObject s obj).reset_calls = s.reset_calls + 1 := by
  unfold releaseObject
  cases hs : s.config.enable_statistics <;> simp [hsd, hlen, hs]

theorem releaseObject_reset_calls (s : State) (obj : Nat) (hsd : s.shutdown = false) :
    (releaseObject s obj).reset_calls = s.reset_calls + 1 := by
  unfold releaseObject
  by_cases hlen : s.available_objects.length < s.config.max_size <;>
    cases hs : s.config.enable_statistics <;> simp [hsd, hlen, hs]

/-- C4: after a successful `acquire`, destroying the handle
(`releaseObject`) invokes the configured reset function exactly once for
that release, and when the internal queue was below `max_size` at release
time a subsequent `acquire` is satisfied from the pool without any increase
of `total_created`. -/
theorem acquire_release_roundtrip (s : State) (obj : Nat)
    (hsd : s.shutdown = false) (_hobj : (acquire s).1 = some obj) :
    (releaseObject (acquire s).2 obj).reset_calls = (acquire s).2.reset_calls + 1 ∧
    ((acquire s).2.available_objects.length < (acquire s).2.config.max_size →
      (acquire (releaseObject (acquire s).2 obj)).1.isSome ∧
      (acquire (releaseObject (acquire s).2 obj)).2.stats.total_created
        = (releaseObject (acquire s).2 obj).stats.total_created) := by
  have hsd1 : (acquire s).2.shutdown = false := by rw [acquire_shutdown_eq]; exact hsd
  refine ⟨releaseObject_reset_calls _ obj hsd1, ?_⟩
  intro hlen
  obtain ⟨hav, hsd2, _, _⟩ := releaseObject_roomy (acquire s).2 obj hsd1 hlen
  apply acquire_from_nonempty
  · rw [hsd2]; exact hsd1
  · rw [hav]; simp

theorem acquire_release_roundtrip_witness :
    ∃ obj, (acquire (init Config.default)).1 = some obj ∧
      (releaseObject (acquire (init Config.default)).2 obj).reset_calls
        = (acquire (init Config.default)).2.reset_calls + 1 ∧
      (acquire (releaseObject (acquire (init Config.default)).2 obj)).1.isSome ∧
      (acquire (releaseObject (acquire (init Config.default)).2 obj)).2.stats.total_created
        = (releaseObject (acquire (init Config.default)).2 obj).stats.total_created := by
  refine ⟨1, by decide, ?_⟩
  have h := acquire_release_roundtrip (init Config.default) 1 (by decide) (by decide)
  exact ⟨h.1, h.2 (by decide)⟩

/-- C8: `acquire` returns a null handle exactly when the available queue is
empty and (auto-expand is off or the in-use count has reached the
configured maximum); in every other case it returns a handle. -/
theorem acquire_none_iff (s : State) (hsd : s.shutdown = false) :
    (acquire s).1 = none ↔
      (s.available_objects = [] ∧
        (s.config.auto_expand = false ∨ s.config.max_size ≤ s.stats.current_in_use)) := by
  unfold acquire
  cases hav : s.available_objects with
  | nil =>
    by_cases hexp : s.config.auto_expand = true ∧ s.stats.current_in_use < s.config.max_size
    · cases hs : s.config.enable_statistics <;>
        simp [hsd, hav, hexp, hs, createObject, hexp.1, Nat.not_le.mpr hexp.2]
    · have hx := hexp
      rw [Decidable.not_and_iff_or_not] at hx
      simp [hsd, hav, hexp]
      rcases hx with hx | hx
      · left; simpa using hx
      · right; exact Nat.not_lt.mp hx
  | cons a rest =>
    cases hs : s.config.enable_statistics <;> simp [hsd, hav, hs]

theorem acquire_none_iff_witness :
    (acquire (init Config.default)).1 ≠ none := by
  have h := acquire_none_iff (init Config.default) (by decide)
  exact fun hcon => absurd (h.mp hcon) (by decide)

end ObjectPool

namespace MemoryTracker

/-- `MemoryTracker::AllocationInfo` (memory_tracker.h): the ledger record of
one tracked allocation.  Timestamps are abstract clock readings in seconds
(`std::chrono::steady_clock` made explicit); the owning thread id is
dropped (single-threaded semantics). -/
structure AllocationInfo where
  ptr : Nat
  size : Nat
  timestamp : Nat
  location : String
deriving DecidableEq

/-- The parts of `MemoryTracker::Config` the ledger operations read.
`enable_leadk_detection`, the misspelt field the .cpp reads at record time,
and `enable_leak_detection`, the field `detectLeaks` reads, can only be one
and the same field for the translation unit to compile against the header,
which declares only `enable_leak_detection`. -/
structure Config where
  enable_leak_detection : Bool
  max_allocations : Nat
  alert_threshold : Nat
deriving DecidableEq

def Config.default : Config :=
  ⟨true, 100000, 100 * 1024 * 1024⟩

/-- `MemoryTracker::Statistics` counters. -/
structure Statistics where
  total_allocated : Nat
  total_freed : Nat
  current_usage : Nat
  peak_usage : Nat
  allocation_count : Nat
  free_count : Nat
  leak_count : Nat
deriving DecidableEq

def Statistics.init : Statistics :=
  ⟨0, 0, 0, 0, 0, 0, 0⟩

/-- Tracker state: the `active_allocations_` ledger is kept as a list in
map-iteration order; pointers in it are unique (`emplace` never replaces). -/
structure State where
  config : Config
  stats : Statistics
  active_allocations : List AllocationInfo
  hotspots : List (String × Nat)
  alert_triggered : Bool
  shutdown : Bool
deriving DecidableEq

/-- The hard-coded leak-age threshold of `detectLeaks`
(`std::chrono::minutes(5)`), in seconds. -/
def leak_threshold : Nat := 5 * 60

def init (cfg : Config) : State :=
  ⟨cfg, Statistics.init, [], [], false, false⟩

/-- First (smallest) timestamp in the ledger, as `std::min_element` finds it. -/
def minTimestamp : List AllocationInfo → Nat
  | [] => 0
  | r :: rs => rs.foldl (fun m x => min m x.timestamp) r.timestamp

/-- Remove the first record carrying the given timestamp. -/
def eraseFirstWithTs : List AllocationInfo → Nat → List AllocationInfo
  | [], _ => []
  | r :: rs, m => if r.timestamp = m then rs else r :: eraseFirstWithTs rs m

/-- The over-capacity branch of `recordAllocation` (memory_tracker.cpp:63-72):
erase the oldest record (the first one with minimal timestamp). -/
def removeOldest (l : List AllocationInfo) : List AllocationInfo :=
  match l with
  | [] => []
  | _ => eraseFirstWithTs l (minTimestamp l)

/-- `allocation_hotspots_[location]++`. -/
def bumpHotspot (hs : List (String × Nat)) (loc : String) : List (String × Nat) :=
  if hs.any (·.1 = loc) then
    hs.map (fun p => if p.1 = loc then (p.1, p.2 + 1) else p)
  else hs ++ [(loc, 1)]

/-- `MemoryTracker::checkAndAlert` (memory_tracker.cpp:384-400), reduced to
its state effect: latch the alert flag (the callback itself is external). -/
def checkAndAlert (s : State) : State :=
  if s.alert_triggered then s else { s with alert_triggered := true }

/-- `MemoryTracker::recordAllocation` (memory_tracker.cpp:32-82).  `now` is
the clock reading stamped on the new record. -/
def recordAllocation (s : State) (now ptr size : Nat) (loc : String) : State :=
  if ptr = 0 ∨ s.shutdown then s
  else
    let new_usage := s.stats.current_usage + size
    let s1 := { s with stats := { s.stats with
      allocation_count := s.stats.allocation_count + 1,
      total_allocated := s.stats.total_allocated + size,
      current_usage := new_usage,
      peak_usage := max s.stats.peak_usage new_usage } }
    let s2 := if new_usage > s.config.alert_threshold then checkAndAlert s1 else s1
    let s3 :=
      if s.config.enable_leak_detection then
        let ledger :=
          if s.config.max_allocations ≤ s2.active_allocations.length then
            removeOldest s2.active_allocations
          else s2.active_allocations
        let ledger2 :=
          if ledger.any (·.ptr = ptr) then ledger
          else ledger ++ [⟨ptr, size, now, loc⟩]
        { s2 with active_allocations := ledger2 }
      else s2
    if loc ≠ "" then { s3 with hotspots := bumpHotspot s3.hotspots loc } else s3

/-- `MemoryTracker::recordDeallocation` (memory_tracker.cpp:84-115).
Pointers in the ledger are unique, so erasing the found iterator is
filtering that pointer out. -/
def recordDeallocation (s : State) (ptr : Nat) : Bool × State :=
  if ptr = 0 ∨ s.shutdown then (false, s)
  else
    let found :=
      if s.config.enable_leak_detection then
        s.active_allocations.find? (·.ptr = ptr)
      else none
    match found with
    | some r =>
      (true, { s with
        active_allocations := s.active_allocations.filter (fun x => x.ptr ≠ ptr),
        stats := { s.stats with
          free_count := s.stats.free_count + 1,
          total_freed := s.stats.total_freed + r.size,
          current_usage := s.stats.current_usage - r.size } })
    | none =>
      (false, { s with stats := { s.stats with
        free_count := s.stats.free_count + 1 } })

/-- Insertion step of the `std::sort`-by-timestamp in `detectLeaks`. -/
def insertByTs (r : AllocationInfo) : List AllocationInfo → List AllocationInfo
  | [] => [r]
  | x :: xs => if r.timestamp < x.timestamp then r :: x :: xs else x :: insertByTs r xs

/-- Ascending sort by timestamp (memory_tracker.cpp:137-140). -/
def sortByTimestamp : List AllocationInfo → List AllocationInfo
  | [] => []
  | r :: rs => insertByTs r (sortByTimestamp rs)

/-- `MemoryTracker::detectLeaks` (memory_tracker.cpp:117-143): all still-live
records older than the fixed threshold, sorted by allocation time. -/
def detectLeaks (s : State) (now : Nat) : List AllocationInfo :=
  if s.config.enable_leak_detection then
    sortByTimestamp
      (s.active_allocations.filter (fun r => leak_threshold < now - r.timestamp))
  else []

/-- Tracker operations for the persistence part of C7. -/
inductive Op where
  | allocOp (now ptr size : Nat) (loc : String) : Op
  | deallocOp (ptr : Nat) : Op
deriving DecidableEq

/-- Does this operation record an allocation at pointer `p`? -/
def Op.allocatesPtr : Op → Nat → Bool
  | Op.allocOp _ q _ _, p => q = p
  | Op.deallocOp _, _ => false

def stepOp (s : State) : Op → State
  | Op.allocOp now ptr size loc => recordAllocation s now ptr size loc
  | Op.deallocOp ptr => (recordDeallocation s ptr).2

def runOps (s : State) (ops : List Op) : State :=
  ops.foldl stepOp s

theorem mem_insertByTs (a r : AllocationInfo) (l : List AllocationInfo) :
    a ∈ insertByTs r l ↔ a = r ∨ a ∈ l := by
  induction l with
  | nil => simp [insertByTs]
  | cons x xs ih =>
    unfold insertByTs
    by_cases h : r.timestamp < x.timestamp <;> simp [h, ih] <;> tauto

theorem mem_sortByTimestamp (a : AllocationInfo) (l : List AllocationInfo) :
    a ∈ sortByTimestamp l ↔ a ∈ l := by
  induction l with
  | nil => simp [sortByTimestamp]
  | cons x xs ih => simp [sortByTimestamp, mem_insertByTs, ih]

theorem mem_eraseFirstWithTs (a : AllocationInfo) (l : List AllocationInfo) (m : Nat) :
    a ∈ eraseFirstWithTs l m → a ∈ l := by
  induction l with
  | nil => simp [eraseFirstWithTs]
  | cons x xs ih =>
    unfold eraseFirstWithTs
    by_cases h : x.timestamp = m
    · simp [h]
      intro hmem; exact Or.inr hmem
    · simp [h]
      intro hmem
      rcases hmem with hmem | hmem
      · exact Or.inl hmem
      · exact Or.inr (ih hmem)

theorem mem_removeOldest (a : AllocationInfo) (l : List AllocationInfo) :
    a ∈ removeOldest l → a ∈ l := by
  unfold removeOldest
  cases l with
  | nil => simp
  | cons x xs => exact mem_eraseFirstWithTs a (x :: xs) (minTimestamp (x :: xs))

/-- The ledger after `recordAllocation`, isolated from the statistics,
alert and hotspot effects (which never touch `active_allocations_`). -/
theorem recordAllocation_active (s : State) (now ptr size : Nat) (loc : String) :
    (recordAllocation s now ptr size loc).active_allocations =
      if ptr = 0 ∨ s.shutdown then s.active_allocations
      else if s.config.enable_leak_detection then
        (fun ledger =>
          if ledger.any (·.ptr = ptr) then ledger
          else ledger ++ [⟨ptr, size, now, loc⟩])
        (if s.config.max_allocations ≤ s.active_allocations.length then
          removeOldest s.active_allocations
        else s.active_allocations)
      else s.active_allocations := by
  unfold recordAllocation checkAndAlert
  by_cases h0 : ptr = 0 ∨ s.shutdown
  · simp [h0]
  · by_cases halert : s.stats.current_usage + size > s.config.alert_threshold <;>
      by_cases htrig : s.alert_triggered <;>
      by_cases hleak : s.config.enable_leak_detection <;>
      by_cases hloc : loc = "" <;>
      simp [h0, halert, htrig, hleak, hloc]

theorem recordAllocation_ptr_free (s : State) (now ptr size : Nat) (loc : String)
    (p : Nat) (hp : ptr ≠ p) (h : ∀ r ∈ s.active_allocations, r.ptr ≠ p) :
    ∀ r ∈ (recordAllocation s now ptr size loc).active_allocations, r.ptr ≠ p := by
  intro r hr
  rw [recordAllocation_active] at hr
  by_cases h0 : ptr = 0 ∨ s.shutdown
  · rw [if_pos h0] at hr; exact h r hr
  · rw [if_neg h0] at hr
    by_cases hleak : s.config.enable_leak_detection
    · simp only [hleak, if_true] at hr
      by_cases hcap : s.config.max_allocations ≤ s.active_allocations.length <;>
        simp only [hcap, if_true, if_false] at hr <;>
        [(by_cases hany : (removeOldest s.active_allocations).any (·.ptr = ptr));
         (by_cases hany : s.active_allocations.any (·.ptr = ptr))] <;>
        simp only [hany, if_true, if_false] at hr
      · exact h r (mem_removeOldest r _ hr)
      · rcases List.mem_append.mp hr with hr | hr
        · exact h r (mem_removeOldest r _ hr)
        · have : r = ⟨ptr, size, now, loc⟩ := by simpa using hr
          rw [this]; simpa using hp
      · exact h r hr
      · rcases List.mem_append.mp hr with hr | hr
        · exact h r hr
        · have : r = ⟨ptr, size, now, loc⟩ := by simpa using hr
          rw [this]; simpa using hp
    · simp only [hleak, if_false] at hr
      exact h r hr

theorem recordDeallocation_ptr_free (s : State) (ptr p : Nat)
    (h : ∀ r ∈ s.active_allocations, r.ptr ≠ p) :
    ∀ r ∈ (recordDeallocation s ptr).2.active_allocations, r.ptr ≠ p := by
  intro r hr
  unfold recordDeallocation at hr
  by_cases h0 : ptr = 0 ∨ s.shutdown
  · rw [if_pos h0] at hr; exact h r hr
  · rw [if_neg h0] at hr
    cases hfind : (if s.config.enable_leak_detection then
        s.active_allocations.find? (·.ptr = ptr) else none) with
    | none =>
      rw [hfind] at hr
      exact h r hr
    | some r0 =>
      rw [hfind] at hr
      exact h r (List.mem_of_mem_filter hr)

theorem detectLeaks_subset (s : State) (now : Nat) (r : AllocationInfo)
    (hr : r ∈ detectLeaks s now) : r ∈ s.active_allocations := by
  unfold detectLeaks at hr
  by_cases hleak : s.config.enable_leak_detection
  · rw [if_pos hleak, mem_sortByTimestamp] at hr
    exact List.mem_of_mem_filter hr
  · rw [if_neg hleak] at hr; cases hr

theorem runOps_ptr_free (ops : List Op) :
    ∀ (s : State) (p : Nat), (∀ op ∈ ops, op.allocatesPtr p = false) →
      (∀ r ∈ s.active_allocations, r.ptr ≠ p) →
      ∀ r ∈ (runOps s ops).active_allocations, r.ptr ≠ p := by
  induction ops with
  | nil => intro s p _ h; simpa [runOps] using h
  | cons op rest ih =>
    intro s p hops h
    have hstep : ∀ r ∈ (stepOp s op).active_allocations, r.ptr ≠ p := by
      cases op with
      | allocOp now ptr size loc =>
        have : ptr ≠ p := by
          have := hops _ (List.mem_cons_self _ _)
          simpa [Op.allocatesPtr] using this
        exact recordAllocation_ptr_free s now ptr size loc p this h
      | deallocOp ptr => exact recordDeallocation_ptr_free s ptr p h
    have := ih (stepOp s op) p (fun o ho => hops o (List.mem_cons_of_mem _ ho)) hstep
    simpa [runOps, List.foldl_cons] using this

/-- C7 (amended): (1) every record still in the ledger whose age exceeds
the leak threshold appears in `detectLeaks`; (2) when `recordDeallocation`
returns `true`, no record with that pointer remains in the ledger; (3) once
the ledger holds no record for a pointer, no sequence of further operations
that does not record a new allocation at that pointer can make it appear in
`detectLeaks` again.  (The unamended claim fails because a record can also
leave the ledger through the capacity eviction in `recordAllocation`.) -/
theorem detectLeaks_amended :
    (∀ (s : State) (now : Nat) (r : AllocationInfo),
      s.config.enable_leak_detection = true → r ∈ s.active_allocations →
      leak_threshold < now - r.timestamp → r ∈ detectLeaks s now) ∧
    (∀ (s : State) (ptr : Nat), (recordDeallocation s ptr).1 = true →
      ∀ r ∈ (recordDeallocation s ptr).2.active_allocations, r.ptr ≠ ptr) ∧
    (∀ (ops : List Op) (s : State) (p : Nat),
      (∀ op ∈ ops, op.allocatesPtr p = false) →
      (∀ r ∈ s.active_allocations, r.ptr ≠ p) →
      ∀ (now : Nat) (r : AllocationInfo),
        r ∈ detectLeaks (runOps s ops) now → r.ptr ≠ p) := by
  refine ⟨?_, ?_, ?_⟩
  · intro s now r hleak hmem hage
    unfold detectLeaks
    rw [if_pos hleak, mem_sortByTimestamp, List.mem_filter]
    exact ⟨hmem, by simpa using hage⟩
  · intro s ptr htrue r hr
    unfold recordDeallocation at htrue hr
    by_cases h0 : ptr = 0 ∨ s.shutdown
    · rw [if_pos h0] at htrue; simp at htrue
    · rw [if_neg h0] at htrue hr
      cases hfind : (if s.config.enable_leak_detection then
          s.active_allocations.find? (·.ptr = ptr) else none) with
      | none =>
        rw [hfind] at htrue
        simp at htrue
      | some r0 =>
        rw [hfind] at hr
        have := List.of_mem_filter hr
        simpa using this
  · intro ops s p hops h now r hr
    exact runOps_ptr_free ops s p hops h r (detectLeaks_subset _ now r hr)

theorem detectLeaks_amended_witness :
    (⟨1, 8, 0, ""⟩ : AllocationInfo) ∈
      detectLeaks (recordAllocation (init Config.default) 0 1 8 "") 1000 ∧
    (∀ r ∈ (recordDeallocation
        (recordAllocation (init Config.default) 0 1 8 "") 1).2.active_allocations,
      r.ptr ≠ 1) ∧
    (∀ r ∈ detectLeaks (runOps (recordDeallocation
        (recordAllocation (init Config.default) 0 1 8 "") 1).2 [Op.deallocOp 1]) 2000,
      r.ptr ≠ 1) := by
  refine ⟨?_, ?_, ?_⟩
  · exact detectLeaks_amended.1 (recordAllocation (init Config.default) 0 1 8 "") 1000
      ⟨1, 8, 0, ""⟩ (by decide) (by decide) (by decide)
  · exact detectLeaks_amended.2.1 (recordAllocation (init Config.default) 0 1 8 "") 1
      (by decide)
  · exact fun r hr => detectLeaks_amended.2.2 [Op.deallocOp 1]
      (recordDeallocation (recordAllocation (init Config.default) 0 1 8 "") 1).2 1
      (by decide) (by decide) 2000 r hr

/-- C7 counterexample: with `max_allocations = 1`, pointer 1 is recorded at
time 0, never deallocated, and far older than the leak threshold at time
1000, yet recording pointer 2 at time 10 evicts it from the bounded ledger,
so it is absent from `detectLeaks` — against the unamended claim. -/
theorem detectLeaks_capacity_eviction_counterexample :
    (recordAllocation (init ⟨true, 1, 100000000⟩) 0 1 8 "").active_allocations
        = [⟨1, 8, 0, ""⟩] ∧
    leak_threshold < 1000 - 0 ∧
    (∀ r ∈ detectLeaks
        (recordAllocation (recordAllocation (init ⟨true, 1, 100000000⟩) 0 1 8 "") 10 2 8 "")
        1000, r.ptr ≠ 1) := by
  decide

end MemoryTracker

namespace PacketRecycler

/-- `PacketRecycler::SizeCategory` (packet_recycler.h). -/
inductive SizeCategory where
  | tiny | small | medium | large | extraLarge
deriving DecidableEq

/-- `static_cast<int>(category)`, the index into `category_counts`. -/
def SizeCategory.idx : SizeCategory → Nat
  | .tiny => 0
  | .small => 1
  | .medium => 2
  | .large => 3
  | .extraLarge => 4

/-- The `PacketSizes` constants (packet_recycler.h). -/
def TINY_MAX : Nat := 1024

def SMALL_MAX : Nat := 16 * 1024

def MEDIUM_MAX : Nat := 256 * 1024

def LARGE_MAX : Nat := 1024 * 1024

def AUDIO_TYPICAL : Nat := 4 * 1024

def VIDEO_SD_TYPICAL : Nat := 64 * 1024

def VIDEO_HD_TYPICAL : Nat := 256 * 1024

def VIDEO_4K_TYPICAL : Nat := 1024 * 1024

/-- `PacketRecycler::categorizeSize`. -/
def categorizeSize (size : Nat) : SizeCategory :=
  if size < TINY_MAX then .tiny
  else if size < SMALL_MAX then .small
  else if size < MEDIUM_MAX then .medium
  else if size < LARGE_MAX then .large
  else .extraLarge

/-- `PacketRecycler::getCategorySuggestedSize`. -/
def getCategorySuggestedSize : SizeCategory → Nat
  | .tiny => AUDIO_TYPICAL
  | .small => VIDEO_SD_TYPICAL
  | .medium => VIDEO_HD_TYPICAL
  | .large => VIDEO_4K_TYPICAL
  | .extraLarge => LARGE_MAX

/-- `PacketRecycler::Config` (the fields the allocation path reads).  The
`double` field `memory_pressure_threshold` (default 0.8) is carried as the
exact rational `threshold_num / threshold_den` so that the pressure
comparison can be stated by cross-multiplication over `Nat`. -/
structure Config where
  max_pools_per_category : Nat
  packets_per_pool : Nat
  max_total_memory : Nat
  enable_reference_counting : Bool
  enable_statistics : Bool
  threshold_num : Nat
  threshold_den : Nat
deriving DecidableEq

def Config.default : Config :=
  ⟨8, 32, 128 * 1024 * 1024, true, true, 8, 10⟩

/-- The statistics counters the PacketRecycler implementation updates. -/
structure Statistics where
  total_allocated : Nat
  total_recycled : Nat
  pool_hits : Nat
  pool_misses : Nat
  current_memory_usage : Nat
  peak_memory_usage : Nat
  category_counts : List Nat
deriving DecidableEq

def Statistics.init : Statistics :=
  ⟨0, 0, 0, 0, 0, 0, [0, 0, 0, 0, 0]⟩

/-- One `PacketRecycler::PacketPool`, keyed externally by its
`(category, target_size)`; `available` lists the pooled packets' buffer
sizes, back of the vector last. -/
structure PoolRest where
  available : List Nat
  total_allocated : Nat
  capacity : Nat
deriving DecidableEq

/-- A backend packet, reduced to the byte size of its allocated buffer. -/
structure Packet where
  bufSize : Nat
deriving DecidableEq

structure State where
  config : Config
  stats : Statistics
  pools : List ((SizeCategory × Nat) × PoolRest)
  shutdown : Bool
deriving DecidableEq

def init (cfg : Config) : State :=
  ⟨cfg, Statistics.init, [], false⟩

def lookupPool (pools : List ((SizeCategory × Nat) × PoolRest))
    (k : SizeCategory × Nat) : Option PoolRest :=
  (pools.find? (·.1 = k)).map (·.2)

def updatePool (pools : List ((SizeCategory × Nat) × PoolRest))
    (k : SizeCategory × Nat) (p : PoolRest) :
    List ((SizeCategory × Nat) × PoolRest) :=
  pools.map (fun q => if q.1 = k then (k, p) else q)

/-- `pools_[category].size()`: number of pools already existing for a
category. -/
def countCategory (pools : List ((SizeCategory × Nat) × PoolRest))
    (c : SizeCategory) : Nat :=
  (pools.filter (·.1.1 = c)).length

/-- `PacketRecycler::getOrCreatePool` (packet_recycler.cpp):
find the pool for `(category, target_size)`, or create it unless the
per-category pool limit is reached. -/
def getOrCreatePool (s : State) (cat : SizeCategory) (t : Nat) :
    Option PoolRest × State :=
  match lookupPool s.pools (cat, t) with
  | some p => (some p, s)
  | none =>
    if s.config.max_pools_per_category ≤ countCategory s.pools cat then (none, s)
    else
      let p : PoolRest := ⟨[], 0, s.config.packets_per_pool⟩
      (some p, { s with pools := s.pools ++ [((cat, t), p)] })

/-- `PacketPool::acquire` (packet_recycler.cpp:373-388): pop the back of
the available vector, else create a new packet with a buffer of
`target_size_` bytes when below capacity (`createPacket`,
packet_recycler.cpp:462-477). -/
def PacketPool.acquire (p : PoolRest) (target : Nat) : Option Nat × PoolRest :=
  match p.available.getLast? with
  | some b => (some b, { p with available := p.available.dropLast })
  | none =>
    if p.total_allocated < p.capacity then
      (some target, { p with total_allocated := p.total_allocated + 1 })
    else (none, p)

/-- `PacketPool::cleanup`: destroy pooled packets from the back until at
most `keep` remain (each destruction decrements `total_allocated_`, floored
at zero). -/
def cleanupPool (p : PoolRest) (keep : Nat) : PoolRest :=
  if p.available.length ≤ keep then p
  else { p with
    available := p.available.take keep,
    total_allocated := p.total_allocated - (p.available.length - keep) }

/-- `PacketRecycler::forceGarbageCollection`. -/
def forceGarbageCollection (s : State) : State :=
  { s with pools :=
      s.pools.map (fun q => (q.1, cleanupPool q.2 (s.config.packets_per_pool / 4))) }

/-- `PacketRecycler::checkMemoryPressure`: over the threshold
(`current > max_total_memory * memory_pressure_threshold`, compared here by
cross-multiplication), the pressure callback fires (external) and a partial
garbage collection runs. -/
def checkMemoryPressure (s : State) : State :=
  if s.stats.current_memory_usage * s.config.threshold_den >
      s.config.max_total_memory * s.config.threshold_num then
    forceGarbageCollection s
  else s

def bumpCount (l : List Nat) (i : Nat) : List Nat :=
  l.set i (l.getD i 0 + 1)

/-- `PacketRecycler::updateStatistics` (packet_recycler.cpp:694-719). -/
def updateStatistics (s : State) (cat : SizeCategory) (size : Nat)
    (is_allocation : Bool) : State :=
  if s.config.enable_statistics = false then s
  else
    let s1 :=
      if is_allocation then
        let cur := s.stats.current_memory_usage + size
        { s with stats := { s.stats with
          total_allocated := s.stats.total_allocated + 1,
          current_memory_usage := cur,
          category_counts := bumpCount s.stats.category_counts cat.idx,
          peak_memory_usage := max s.stats.peak_memory_usage cur } }
      else
        { s with stats := { s.stats with
          total_recycled := s.stats.total_recycled + 1,
          current_memory_usage :=
            if size ≤ s.stats.current_memory_usage then
              s.stats.current_memory_usage - size
            else s.stats.current_memory_usage } }
    if is_allocation then checkMemoryPressure s1 else s1

/-- The shared miss path of `allocatePacket`: count the pool miss, then
allocate a fresh backend packet with a buffer of exactly `size` bytes
(`av_new_packet(packet, size)`); the backend allocation is modelled as
succeeding. -/
def allocateMissPath (s : State) (cat : SizeCategory) (size : Nat) :
    Option Packet × State :=
  let s1 := { s with stats := { s.stats with
    pool_misses := s.stats.pool_misses + 1 } }
  let s2 := updateStatistics s1 cat size true
  (some ⟨size⟩, s2)

/-- `PacketRecycler::allocatePacket` (packet_recycler.cpp:530-577). -/
def allocatePacket (s : State) (size : Nat) : Option Packet × State :=
  if s.shutdown then (none, s)
  else
    let cat := categorizeSize size
    let t := max size (getCategorySuggestedSize cat)
    let gp := getOrCreatePool s cat t
    match gp.1 with
    | some p =>
      let aq := PacketPool.acquire p t
      let s2 := { gp.2 with pools := updatePool gp.2.pools (cat, t) aq.2 }
      match aq.1 with
      | some b =>
        let s3 := updateStatistics s2 cat size true
        let s4 := { s3 with stats := { s3.stats with
          pool_hits := s3.stats.pool_hits + 1 } }
        (some ⟨b⟩, s4)
      | none => allocateMissPath s2 cat size
    | none => allocateMissPath gp.2 cat size

/-- C5 counterexample: a fresh recycler, request of 100 bytes.  The
sub-pool lookup yields no ready buffer, and the new buffer is indeed the
category's suggested size (4 KiB), but the pool-miss counter stays 0 — the
code counts this as a pool hit — against the claim that the miss counter is
incremented. -/
theorem allocatePacket_fresh_counts_hit :
    (allocatePacket (init Config.default) 100).1 = some ⟨4096⟩ ∧
    (allocatePacket (init Config.default) 100).2.stats.pool_misses = 0 ∧
    (allocatePacket (init Config.default) 100).2.stats.pool_hits = 1 := by
  decide

theorem checkMemoryPressure_stats (s : State) :
    (checkMemoryPressure s).stats = s.stats := by
  unfold checkMemoryPressure forceGarbageCollection
  split <;> rfl

theorem updateStatistics_hits_misses (s : State) (cat : SizeCategory) (size : Nat)
    (b : Bool) :
    (updateStatistics s cat size b).stats.pool_hits = s.stats.pool_hits ∧
    (updateStatistics s cat size b).stats.pool_misses = s.stats.pool_misses := by
  unfold updateStatistics
  by_cases hs : s.config.enable_statistics = false
  · simp [hs]
  · cases b <;> simp [hs, checkMemoryPressure_stats]

theorem allocateMissPath_spec (s : State) (cat : SizeCategory) (size : Nat) :
    (allocateMissPath s cat size).1 = some ⟨size⟩ ∧
    (allocateMissPath s cat size).2.stats.pool_misses = s.stats.pool_misses + 1 ∧
    (allocateMissPath s cat size).2.stats.pool_hits = s.stats.pool_hits := by
  unfold allocateMissPath
  refine ⟨rfl, ?_, ?_⟩
  · rw [(updateStatistics_hits_misses _ cat size true).2]
  · rw [(updateStatistics_hits_misses _ cat size true).1]

/-- C5 (amended): for a request whose sub-pool lookup yields no ready
buffer, the behaviour splits: (i) while the sub-pool is below its capacity
(also when the sub-pool is freshly created), a new packet is created inside
the pool with a buffer of the pool's target size — `max(requested,
suggested)` — and the `pool_hits` counter, not `pool_misses`, is
incremented; (ii) only when the sub-pool cannot supply a packet (at
capacity, or the per-category pool limit blocks creation) is `pool_misses`
incremented, and then the new backend buffer is sized to the exact
requested size, not the suggested size. -/
theorem allocatePacket_no_ready_buffer (s : State) (size : Nat)
    (hsd : s.shutdown = false) :
    (∀ p, lookupPool s.pools (categorizeSize size,
        max size (getCategorySuggestedSize (categorizeSize size))) = some p →
      p.available = [] →
      (p.total_allocated < p.capacity →
        (allocatePacket s size).1 =
          some ⟨max size (getCategorySuggestedSize (categorizeSize size))⟩ ∧
        (allocatePacket s size).2.stats.pool_hits = s.stats.pool_hits + 1 ∧
        (allocatePacket s size).2.stats.pool_misses = s.stats.pool_misses) ∧
      (p.capacity ≤ p.total_allocated →
        (allocatePacket s size).1 = some ⟨size⟩ ∧
        (allocatePacket s size).2.stats.pool_misses = s.stats.pool_misses + 1 ∧
        (allocatePacket s size).2.stats.pool_hits = s.stats.pool_hits)) ∧
    (lookupPool s.pools (categorizeSize size,
        max size (getCategorySuggestedSize (categorizeSize size))) = none →
      (s.config.max_pools_per_category ≤ countCategory s.pools (categorizeSize size) →
        (allocatePacket s size).1 = some ⟨size⟩ ∧
        (allocatePacket s size).2.stats.pool_misses = s.stats.pool_misses + 1 ∧
        (allocatePacket s size).2.stats.pool_hits = s.stats.pool_hits) ∧
      (countCategory s.pools (categorizeSize size) < s.config.max_pools_per_category →
        0 < s.config.packets_per_pool →
        (allocatePacket s size).1 =
          some ⟨max size (getCategorySuggestedSize (categorizeSize size))⟩ ∧
        (allocatePacket s size).2.stats.pool_hits = s.stats.pool_hits + 1 ∧
        (allocatePacket s size).2.stats.pool_misses = s.stats.pool_misses)) := by
  constructor
  · intro p hlp hav
    constructor
    · intro hcap
      unfold allocatePacket getOrCreatePool PacketPool.acquire
      simp only [hsd, Bool.false_eq_true, if_false, hlp, hav, List.getLast?_nil,
        if_pos hcap]
      refine ⟨by trivial, ?_, ?_⟩
      · rw [(updateStatistics_hits_misses _ _ size true).1]
      · rw [(updateStatistics_hits_misses _ _ size true).2]
    · intro hcap
      have hncap : ¬ p.total_allocated < p.capacity := Nat.not_lt.mpr hcap
      unfold allocatePacket getOrCreatePool PacketPool.acquire
      simp only [hsd, Bool.false_eq_true, if_false, hlp, hav, List.getLast?_nil,
        if_neg hncap]
      exact allocateMissPath_spec _ _ size
  · intro hlp
    constructor
    · intro hlim
      unfold allocatePacket getOrCreatePool
      simp only [hsd, Bool.false_eq_true, if_false, hlp, if_pos hlim]
      exact allocateMissPath_spec _ _ size
    · intro hlim hppp
      have hnlim : ¬ s.config.max_pools_per_category ≤
          countCategory s.pools (categorizeSize size) := Nat.not_le.mpr hlim
      unfold allocatePacket getOrCreatePool PacketPool.acquire
      simp only [hsd, Bool.false_eq_true, if_false, hlp, if_neg hnlim,
        List.getLast?_nil, if_pos hppp]
      refine ⟨by trivial, ?_, ?_⟩
      · rw [(updateStatistics_hits_misses _ _ size true).1]
      · rw [(updateStatistics_hits_misses _ _ size true).2]

theorem allocatePacket_no_ready_buffer_witness :
    (allocatePacket (init Config.default) 100).1 = some ⟨4096⟩ ∧
    (allocatePacket (init Config.default) 100).2.stats.pool_hits =
      (init Config.default).stats.pool_hits + 1 ∧
    (allocatePacket (init Config.default) 100).2.stats.pool_misses =
      (init Config.default).stats.pool_misses := by
  have h := (allocatePacket_no_ready_buffer (init Config.default) 100 (by decide)).2
    (by decide)
  have h2 := h.2 (by decide) (by decide)
  have heq : max 100 (getCategorySuggestedSize (categorizeSize 100)) = 4096 := by decide
  rw [heq] at h2
  exact h2

end PacketRecycler

/-- Association-list update with `std::unordered_map` semantics
(`m[k] = v`): replace an existing binding in place, else append; list order
models map-iteration order (insertion order here). -/
def assocSet {α β : Type} [DecidableEq α] (m : List (α × β)) (k : α) (v : β) :
    List (α × β) :=
  if m.any (·.1 = k) then m.map (fun p => if p.1 = k then (k, v) else p)
  else m ++ [(k, v)]

/-- Association-list lookup (`map.find(k)`). -/
def assocFind {α β : Type} [DecidableEq α] (m : List (α × β)) (k : α) : Option β :=
  (m.find? (·.1 = k)).map (·.2)

/-- Association-list erase (`map.erase(k)`); keys are unique. -/
def assocErase {α β : Type} [DecidableEq α] (m : List (α × β)) (k : α) :
    List (α × β) :=
  m.filter (·.1 ≠ k)

namespace CacheManager

/-- `CacheManager::EvictionPolicy` (cache_manager.h). -/
inductive EvictionPolicy where
  | lru | lfu | fifo | randomPolicy | ttl | adaptive
deriving DecidableEq

/-- `CacheManager::CacheLevel`. -/
inductive CacheLevel where
  | l1 | l2 | l3
deriving DecidableEq

/-- `CacheManager::CacheEntry` over `Key = Nat`, `Value = Nat`: `0` plays
the role of the default-constructed key `Key{}`.  Timestamps are abstract
clock readings passed in explicitly. -/
structure CacheEntry where
  value : Nat
  created_time : Nat
  last_access_time : Nat
  access_count : Nat
  hit_count : Nat
  size : Nat
  is_compressed : Bool
  level : CacheLevel
deriving DecidableEq

/-- One `CacheManager::SingleLevelCache`: the key map, the LRU list (most
recent first; `lru_map_` is membership in it), and the LFU structures. -/
structure SingleLevelCache where
  capacity : Nat
  policy : EvictionPolicy
  cache_map : List (Nat × CacheEntry)
  lru_list : List Nat
  frequency_lists : List (Nat × List Nat)
  frequency_map : List (Nat × Nat)
  min_frequency : Nat
deriving DecidableEq

namespace SingleLevelCache

def empty (capacity : Nat) (policy : EvictionPolicy) : SingleLevelCache :=
  ⟨capacity, policy, [], [], [], [], 1⟩

/-- Pure lookup into the tier's key map. -/
def find (c : SingleLevelCache) (k : Nat) : Option CacheEntry :=
  assocFind c.cache_map k

def flGet (fl : List (Nat × List Nat)) (f : Nat) : List Nat :=
  (assocFind fl f).getD []

/-- `SingleLevelCache::updateLRU` (cache_manager.cpp): splice the key to
the front of the recency list if it is tracked. -/
def updateLRU (c : SingleLevelCache) (k : Nat) : SingleLevelCache :=
  if k ∈ c.lru_list then { c with lru_list := k :: c.lru_list.erase k } else c

/-- `SingleLevelCache::updateLFU` (cache_manager.cpp): move the key one
frequency bucket up and advance `min_frequency_` when its bucket drained. -/
def updateLFU (c : SingleLevelCache) (k : Nat) : SingleLevelCache :=
  match assocFind c.frequency_map k with
  | none => c
  | some f =>
    let fl1 := assocSet c.frequency_lists f ((flGet c.frequency_lists f).erase k)
    let fl2 := assocSet fl1 (f + 1) (k :: flGet fl1 (f + 1))
    let fm := assocSet c.frequency_map k (f + 1)
    let mf :=
      if flGet fl2 c.min_frequency = [] then c.min_frequency + 1
      else c.min_frequency
    { c with frequency_lists := fl2, frequency_map := fm, min_frequency := mf }

/-- `SingleLevelCache::get` (cache_manager.cpp:425-453): on a hit, bump the
entry's counters, stamp the access time, and refresh the LRU/LFU
bookkeeping. -/
def get (c : SingleLevelCache) (now k : Nat) :
    Option CacheEntry × SingleLevelCache :=
  match assocFind c.cache_map k with
  | none => (none, c)
  | some e =>
    let e2 := { e with
      access_count := e.access_count + 1,
      hit_count := e.hit_count + 1,
      last_access_time := now }
    let c1 := { c with cache_map := assocSet c.cache_map k e2 }
    let c2 :=
      match c.policy with
      | EvictionPolicy.lru => updateLRU c1 k
      | EvictionPolicy.lfu => updateLFU c1 k
      | _ => c1
    (some e2, c2)

/--
`SingleLevelCache::evictOne` (memory_manager.h:625-695 of the embedded
cache_manager.cpp).  The entire eviction-policy switch in its body is
commented out, so `evict_key` stays the default-constructed `Key{}` (here
`0`).  `cache_map_[evict_key]` then yields the entry for key 0 if resident
(a null `shared_ptr` freshly inserted by `operator[]` otherwise), and the
subsequent `erase` removes exactly that binding again — so the net effect
on the map is: erase key 0 if present, nothing otherwise.  The LRU/LFU
bookkeeping is never touched.
-/
def evictOne (c : SingleLevelCache) :
    (Nat × Option CacheEntry) × SingleLevelCache :=
  if c.cache_map = [] then ((0, none), c)
  else
    match assocFind c.cache_map 0 with
    | some e => ((0, some e), { c with cache_map := assocErase c.cache_map 0 })
    | none => ((0, none), c)

/-- The new-key insertion tail of `SingleLevelCache::put`
(cache_manager.cpp:479-496): insert and do the per-policy bookkeeping. -/
def insertNew (c : SingleLevelCache) (k : Nat) (e : CacheEntry) :
    SingleLevelCache :=
  let c1 := { c with cache_map := assocSet c.cache_map k e }
  match c.policy with
  | EvictionPolicy.lru => { c1 with lru_list := k :: c1.lru_list }
  | EvictionPolicy.lfu =>
    { c1 with
      frequency_lists := assocSet c1.frequency_lists 1 (k :: flGet c1.frequency_lists 1),
      frequency_map := assocSet c1.frequency_map k 1,
      min_frequency := 1 }
  | _ => c1

/-- `SingleLevelCache::put` (cache_manager.cpp:455-497). -/
def put (c : SingleLevelCache) (k : Nat) (e : CacheEntry) :
    Bool × SingleLevelCache :=
  if (assocFind c.cache_map k).isSome then
    let c1 := { c with cache_map := assocSet c.cache_map k e }
    (true, updateLRU c1 k)
  else if c.capacity ≤ c.cache_map.length then
    let ev := evictOne c
    if ev.1.1 = k then
      (true, { ev.2 with cache_map := assocSet ev.2.cache_map k e })
    else (true, insertNew ev.2 k e)
  else (true, insertNew c k e)

/-- `SingleLevelCache::remove` (cache_manager.cpp:500-539). -/
def remove (c : SingleLevelCache) (k : Nat) : Bool × SingleLevelCache :=
  if (assocFind c.cache_map k).isNone then (false, c)
  else
    let c1 :=
      match c.policy with
      | EvictionPolicy.lru =>
        if k ∈ c.lru_list then { c with lru_list := c.lru_list.erase k } else c
      | EvictionPolicy.lfu =>
        match assocFind c.frequency_map k with
        | none => c
        | some f =>
          let fl1 := assocSet c.frequency_lists f ((flGet c.frequency_lists f).erase k)
          let fm := assocErase c.frequency_map k
          let mf :=
            if flGet fl1 c.min_frequency = [] then c.min_frequency + 1
            else c.min_frequency
          { c with frequency_lists := fl1, frequency_map := fm, min_frequency := mf }
      | _ => c
    (true, { c1 with cache_map := assocErase c1.cache_map k })

end SingleLevelCache

/-- The statistics counters of `CacheManager`. -/
structure Statistics where
  l1_hits : Nat
  l2_hits : Nat
  l3_hits : Nat
  misses : Nat
  evictions : Nat
  promotions : Nat
  demotions : Nat
  compressions : Nat
  prefetch_hits : Nat
  prefetch_misses : Nat
deriving DecidableEq

def Statistics.init : Statistics :=
  ⟨0, 0, 0, 0, 0, 0, 0, 0, 0, 0⟩

/-- `CacheManager::Config`.  `promote_threshold` / `demote_threshold` are
doubles in the source but are consumed only by the promotion/demotion logic,
which the repository never defines; the spec-modelled promotion below reads
them as access-count thresholds, so they are carried as `Nat`. -/
structure Config where
  l1_capacity : Nat
  l2_capacity : Nat
  l3_capacity : Nat
  l1_policy : EvictionPolicy
  l2_policy : EvictionPolicy
  l3_policy : EvictionPolicy
  enable_compression : Bool
  enable_prefetch : Bool
  enable_statistics : Bool
  ttl_seconds : Nat
  promote_threshold : Nat
  demote_threshold : Nat
deriving DecidableEq

/-- Whole-cache state: the three tiers plus statistics. -/
structure CMState where
  config : Config
  stats : Statistics
  l1 : SingleLevelCache
  l2 : SingleLevelCache
  l3 : SingleLevelCache
  shutdown : Bool
deriving DecidableEq

def init (cfg : Config) : CMState :=
  ⟨cfg, Statistics.init,
    SingleLevelCache.empty cfg.l1_capacity cfg.l1_policy,
    SingleLevelCache.empty cfg.l2_capacity cfg.l2_policy,
    SingleLevelCache.empty cfg.l3_capacity cfg.l3_policy,
    false⟩

/-- `CacheManager::findEntry` (cache_manager.cpp:825-846): consult L1, then
L2, then L3; a hit returns the entry and its level (the tier's `get` has
already refreshed the entry's counters). -/
def findEntry (s : CMState) (now k : Nat) :
    Option (CacheEntry × CacheLevel) × CMState :=
  let g1 := s.l1.get now k
  match g1.1 with
  | some e => (some (e, CacheLevel.l1), { s with l1 := g1.2 })
  | none =>
    let g2 := s.l2.get now k
    match g2.1 with
    | some e => (some (e, CacheLevel.l2), { s with l2 := g2.2 })
    | none =>
      let g3 := s.l3.get now k
      match g3.1 with
      | some e => (some (e, CacheLevel.l3), { s with l3 := g3.2 })
      | none => (none, s)

/-- `CacheManager::updateStatistics` (cache_manager.cpp:848-869). -/
def updateStatistics (s : CMState) (level : CacheLevel) (hit : Bool) : CMState :=
  if s.config.enable_statistics = false then s
  else if hit then
    match level with
    | CacheLevel.l1 =>
      { s with stats := { s.stats with l1_hits := s.stats.l1_hits + 1 } }
    | CacheLevel.l2 =>
      { s with stats := { s.stats with l2_hits := s.stats.l2_hits + 1 } }
    | CacheLevel.l3 =>
      { s with stats := { s.stats with l3_hits := s.stats.l3_hits + 1 } }
  else { s with stats := { s.stats with misses := s.stats.misses + 1 } }

/-- Modelled from the spec: `checkForPromotion` is declared in
cache_manager.h but defined nowhere in the repository.  Spec §4.4: the
cache "can promote/demote entries across tiers based on configurable
access-frequency thresholds (`promote_threshold`, `demote_threshold`)".
We model promotion as: an entry below L1 whose access count has reached
`promote_threshold` is removed from its tier and inserted one tier up,
counting one promotion.  It touches no hit or miss counter. -/
def checkForPromotion (s : CMState) (k : Nat) (e : CacheEntry) : CMState :=
  if e.access_count < s.config.promote_threshold then s
  else
    match e.level with
    | CacheLevel.l1 => s
    | CacheLevel.l2 =>
      { s with
        l2 := (s.l2.remove k).2,
        l1 := (s.l1.put k { e with level := CacheLevel.l1 }).2,
        stats := { s.stats with promotions := s.stats.promotions + 1 } }
    | CacheLevel.l3 =>
      { s with
        l3 := (s.l3.remove k).2,
        l2 := (s.l2.put k { e with level := CacheLevel.l2 }).2,
        stats := { s.stats with promotions := s.stats.promotions + 1 } }

/-- Modelled from the spec: `decompressEntry` is declared in cache_manager.h
but defined nowhere in the repository.  Spec §4.4/§6: cold entries are
compressed "via configurable compressor/decompressor functions"; the round
trip restores the original value, so at the value level decompression only
clears the `is_compressed` flag on the shared entry (visible in whichever
tier holds it). -/
def decompressInState (s : CMState) (k : Nat) : CMState :=
  let fix := fun (c : SingleLevelCache) =>
    match assocFind c.cache_map k with
    | none => c
    | some e =>
      { c with cache_map := assocSet c.cache_map k { e with is_compressed := false } }
  { s with l1 := fix s.l1, l2 := fix s.l2, l3 := fix s.l3 }

/-- `CacheManager::get` (cache_manager.cpp:715-742): scan the tiers, count
the hit or the miss, optionally promote and decompress, and hand back the
entry's value. -/
def get (s : CMState) (now k : Nat) : Option Nat × CMState :=
  if s.shutdown then (none, s)
  else
    let fe := findEntry s now k
    match fe.1 with
    | some el =>
      let s2 := updateStatistics fe.2 el.2 true
      let s3 := if s2.config.enable_prefetch then checkForPromotion s2 k el.1 else s2
      let s4 :=
        if el.1.is_compressed ∧ s3.config.enable_compression then
          decompressInState s3 k
        else s3
      (some el.1.value, s4)
    | none => (none, updateStatistics fe.2 CacheLevel.l1 false)

/-- Modelled from the spec: `compressEntry` is declared in cache_manager.h
but defined nowhere in the repository.  Spec §4.4: "insertion at L3
optionally triggers compression of the value via configurable
compressor/decompressor functions"; at the value level the stored entry is
flagged compressed and a compression is counted. -/
def compressInState (s : CMState) (k : Nat) : CMState :=
  match assocFind s.l3.cache_map k with
  | none => s
  | some e =>
    { s with
      l3 := { s.l3 with
        cache_map := assocSet s.l3.cache_map k { e with is_compressed := true } },
      stats := { s.stats with compressions := s.stats.compressions + 1 } }

/-- `CacheManager::put` (cache_manager.cpp:745-771): build the entry and
insert it at the caller-specified tier; a successful L3 insertion with
compression enabled compresses the entry. -/
def put (s : CMState) (now k v size : Nat) (level : CacheLevel) : Bool × CMState :=
  if s.shutdown then (false, s)
  else
    let e : CacheEntry := ⟨v, now, now, 0, 0, size, false, level⟩
    match level with
    | CacheLevel.l1 =>
      let p := s.l1.put k e
      (p.1, { s with l1 := p.2 })
    | CacheLevel.l2 =>
      let p := s.l2.put k e
      (p.1, { s with l2 := p.2 })
    | CacheLevel.l3 =>
      let p := s.l3.put k e
      let s1 := { s with l3 := p.2 }
      if p.1 ∧ s.config.enable_compression then (p.1, compressInState s1 k)
      else (p.1, s1)

/-- C1: with the eviction switch commented out, a capacity-2 LRU tier that
receives three distinct keys (all different from the default key 0) evicts
nothing: `evictOne` targets key 0, absent, so all three keys stay resident
and the map exceeds its capacity — against the claim that exactly the
least-recently-used key 1 is evicted. -/
theorem evictOne_no_lru_eviction :
    (((((SingleLevelCache.empty 2 EvictionPolicy.lru).put 1
        ⟨10, 0, 0, 0, 0, 1, false, CacheLevel.l1⟩).2.put 2
        ⟨20, 0, 0, 0, 0, 1, false, CacheLevel.l1⟩).2.put 3
        ⟨30, 0, 0, 0, 0, 1, false, CacheLevel.l1⟩).2.cache_map.length = 3) ∧
    ((((SingleLevelCache.empty 2 EvictionPolicy.lru).put 1
        ⟨10, 0, 0, 0, 0, 1, false, CacheLevel.l1⟩).2.put 2
        ⟨20, 0, 0, 0, 0, 1, false, CacheLevel.l1⟩).2.put 3
        ⟨30, 0, 0, 0, 0, 1, false, CacheLevel.l1⟩).2.find 1 =
      some ⟨10, 0, 0, 0, 0, 1, false, CacheLevel.l1⟩ := by
  decide

theorem checkForPromotion_counters (s : CMState) (k : Nat) (e : CacheEntry) :
    (checkForPromotion s k e).stats.l1_hits = s.stats.l1_hits ∧
    (checkForPromotion s k e).stats.l2_hits = s.stats.l2_hits ∧
    (checkForPromotion s k e).stats.l3_hits = s.stats.l3_hits ∧
    (checkForPromotion s k e).stats.misses = s.stats.misses := by
  unfold checkForPromotion
  by_cases h : e.access_count < s.config.promote_threshold
  · simp [h]
  · cases hl : e.level <;> simp [h, hl]

theorem decompressInState_stats (s : CMState) (k : Nat) :
    (decompressInState s k).stats = s.stats := rfl

theorem checkForPromotion_config (s : CMState) (k : Nat) (e : CacheEntry) :
    (checkForPromotion s k e).config = s.config := by
  unfold checkForPromotion
  by_cases h : e.access_count < s.config.promote_threshold
  · simp [h]
  · cases hl : e.level <;> simp [h, hl]

/-- C9: `get` consults L1, then L2, then L3, returns the value of the first
tier containing the key while incrementing exactly that tier's hit counter
(the other tiers' counters and the miss counter unchanged); a key absent
from all three tiers yields `none` with exactly one miss counted. -/
theorem get_scans_tiers (s : CMState) (now k : Nat)
    (hsd : s.shutdown = false) (hstats : s.config.enable_statistics = true) :
    (∀ e, s.l1.find k = some e →
      (get s now k).1 = some e.value ∧
      (get s now k).2.stats.l1_hits = s.stats.l1_hits + 1 ∧
      (get s now k).2.stats.l2_hits = s.stats.l2_hits ∧
      (get s now k).2.stats.l3_hits = s.stats.l3_hits ∧
      (get s now k).2.stats.misses = s.stats.misses) ∧
    (∀ e, s.l1.find k = none → s.l2.find k = some e →
      (get s now k).1 = some e.value ∧
      (get s now k).2.stats.l2_hits = s.stats.l2_hits + 1 ∧
      (get s now k).2.stats.l1_hits = s.stats.l1_hits ∧
      (get s now k).2.stats.l3_hits = s.stats.l3_hits ∧
      (get s now k).2.stats.misses = s.stats.misses) ∧
    (∀ e, s.l1.find k = none → s.l2.find k = none → s.l3.find k = some e →
      (get s now k).1 = some e.value ∧
      (get s now k).2.stats.l3_hits = s.stats.l3_hits + 1 ∧
      (get s now k).2.stats.l1_hits = s.stats.l1_hits ∧
      (get s now k).2.stats.l2_hits = s.stats.l2_hits ∧
      (get s now k).2.stats.misses = s.stats.misses) ∧
    (s.l1.find k = none → s.l2.find k = none → s.l3.find k = none →
      (get s now k).1 = none ∧
      (get s now k).2.stats.misses = s.stats.misses + 1 ∧
      (get s now k).2.stats.l1_hits = s.stats.l1_hits ∧
      (get s now k).2.stats.l2_hits = s.stats.l2_hits ∧
      (get s now k).2.stats.l3_hits = s.stats.l3_hits) := by
  refine ⟨?_, ?_, ?_, ?_⟩
  · intro e h1
    unfold SingleLevelCache.find at h1
    unfold get findEntry SingleLevelCache.get
    simp only [hsd, Bool.false_eq_true, if_false, h1]
    by_cases hp : s.config.enable_prefetch <;>
      by_cases hcmp : e.is_compressed <;>
      by_cases hc : s.config.enable_compression <;>
      simp [hp, hcmp, hc, updateStatistics, hstats, checkForPromotion_counters,
        decompressInState_stats, checkForPromotion_config]
  · intro e h1 h2
    unfold SingleLevelCache.find at h1 h2
    unfold get findEntry SingleLevelCache.get
    simp only [hsd, Bool.false_eq_true, if_false, h1, h2]
    by_cases hp : s.config.enable_prefetch <;>
      by_cases hcmp : e.is_compressed <;>
      by_cases hc : s.config.enable_compression <;>
      simp [hp, hcmp, hc, updateStatistics, hstats, checkForPromotion_counters,
        decompressInState_stats, checkForPromotion_config]
  · intro e h1 h2 h3
    unfold SingleLevelCache.find at h1 h2 h3
    unfold get findEntry SingleLevelCache.get
    simp only [hsd, Bool.false_eq_true, if_false, h1, h2, h3]
    by_cases hp : s.config.enable_prefetch <;>
      by_cases hcmp : e.is_compressed <;>
      by_cases hc : s.config.enable_compression <;>
      simp [hp, hcmp, hc, updateStatistics, hstats, checkForPromotion_counters,
        decompressInState_stats, checkForPromotion_config]
  · intro h1 h2 h3
    unfold SingleLevelCache.find at h1 h2 h3
    unfold get findEntry SingleLevelCache.get
    simp [hsd, h1, h2, h3, updateStatistics, hstats]

theorem get_scans_tiers_witness :
    (get (put (init ⟨2, 2, 2, EvictionPolicy.lru, EvictionPolicy.lru,
        EvictionPolicy.lfu, false, false, true, 3600, 100, 20⟩) 5 7 42 1
        CacheLevel.l2).2 6 7).1 = some 42 ∧
    (get (put (init ⟨2, 2, 2, EvictionPolicy.lru, EvictionPolicy.lru,
        EvictionPolicy.lfu, false, false, true, 3600, 100, 20⟩) 5 7 42 1
        CacheLevel.l2).2 6 7).2.stats.l2_hits =
      (put (init ⟨2, 2, 2, EvictionPolicy.lru, EvictionPolicy.lru,
        EvictionPolicy.lfu, false, false, true, 3600, 100, 20⟩) 5 7 42 1
        CacheLevel.l2).2.stats.l2_hits + 1 := by
  have h := (get_scans_tiers (put (init ⟨2, 2, 2, EvictionPolicy.lru,
      EvictionPolicy.lru, EvictionPolicy.lfu, false, false, true, 3600, 100, 20⟩)
      5 7 42 1 CacheLevel.l2).2 6 7 (by decide) (by decide)).2.1
      ⟨42, 5, 5, 0, 0, 1, false, CacheLevel.l2⟩ (by decide) (by decide)
  exact ⟨h.1, h.2.1⟩

end CacheManager

namespace MemoryPool

/-- `MemoryPool::Config` (memory_pool.h). -/
structure Config where
  small_block_size : Nat
  medium_block_size : Nat
  initial_pool_size : Nat
  max_pool_size : Nat
  alignment : Nat
  enable_statistics : Bool
  enable_debug : Bool
deriving DecidableEq

def Config.default : Config :=
  ⟨1024, 65536, 16 * 1024 * 1024, 512 * 1024 * 1024, 32, true, false⟩

/-- `MemoryPool::MemoryBlock`, reduced to its payload (the intrusive
next/prev links are the list structure of the free list). -/
structure MemoryBlock where
  data : Nat
  size : Nat
  is_free : Bool
deriving DecidableEq

/-- `MemoryPool::LayeredPool`: chunk base addresses (each chunk spans
`block_size * blocks_per_chunk` bytes) and the free list, head first. -/
structure LayeredPool where
  chunks : List Nat
  free_list : List MemoryBlock
  block_size : Nat
  blocks_per_chunk : Nat
deriving DecidableEq

/-- `MemoryPool::Statistics` counters. -/
structure Statistics where
  total_allocated : Nat
  total_freed : Nat
  current_usage : Nat
  peak_usage : Nat
  allocation_count : Nat
  free_count : Nat
  pool_hit_count : Nat
  system_alloc_count : Nat
deriving DecidableEq

def Statistics.init : Statistics :=
  ⟨0, 0, 0, 0, 0, 0, 0, 0⟩

/-- `MemoryPool::StatisticsSnapshot` (memory_pool.h:50-69). -/
structure StatisticsSnapshot where
  total_allocated : Nat
  total_freed : Nat
  current_usage : Nat
  peak_usage : Nat
  allocation_count : Nat
  free_count : Nat
  pool_hit_count : Nat
  system_alloc_count : Nat
deriving DecidableEq

/-- `StatisticsSnapshot::getFragmentationRate` (memory_pool.h:66-68):
`peak_usage > 0 ? 1.0 - current_usage / peak_usage : 0.0`, in exact
rational arithmetic. -/
def StatisticsSnapshot.getFragmentationRate (st : StatisticsSnapshot) : ℚ :=
  if 0 < st.peak_usage then
    1 - (st.current_usage : ℚ) / (st.peak_usage : ℚ)
  else 0

/-- Result of `MemoryPool::allocate`: a pointer, the `nullptr` return, or
the `throw std::bad_alloc()` at memory_pool.cpp:85. -/
inductive AllocOutcome where
  | ptr (p : Nat)
  | nullResult
  | badAllocThrown
deriving DecidableEq

/--
`MemoryPool` state.  Fresh addresses for `std::aligned_alloc` come from the
monotone counter `next_addr` (kept aligned: it starts at 4096 and advances
by multiples of the alignment), so chunks and system allocations occupy
disjoint address ranges; `sys_fail` makes every `std::aligned_alloc` return
null (the exhausted-system scenario); `freed_sys` observes every pointer
handed to `std::free`.
-/
structure State where
  config : Config
  stats : Statistics
  small_pool : LayeredPool
  medium_pool : LayeredPool
  large_pool : LayeredPool
  pointer_sources : List (Nat × (Bool × Nat))
  allocated_pointers : List Nat
  freed_sys : List Nat
  next_addr : Nat
  sys_fail : Bool
  shutdown : Bool
deriving DecidableEq

inductive PoolId where
  | small | medium | large
deriving DecidableEq

def getPool (s : State) : PoolId → LayeredPool
  | PoolId.small => s.small_pool
  | PoolId.medium => s.medium_pool
  | PoolId.large => s.large_pool

def setPool (s : State) (pid : PoolId) (p : LayeredPool) : State :=
  match pid with
  | PoolId.small => { s with small_pool := p }
  | PoolId.medium => { s with medium_pool := p }
  | PoolId.large => { s with large_pool := p }

/-- `MemoryPool::alignSize` (memory_pool.cpp:432-435): round `size` up to a
multiple of the (power-of-two) alignment; `(size + a - 1) & ~(a - 1)`
equals this arithmetic rounding for power-of-two `a`. -/
def alignSize (size alignment : Nat) : Nat :=
  (size + alignment - 1) / alignment * alignment

/-- `MemoryPool::alignPointer` (memory_pool.cpp:425-430): same rounding on
an address. -/
def alignPointer (ptr alignment : Nat) : Nat :=
  (ptr + alignment - 1) / alignment * alignment

/-- `MemoryPool::expandPool` (memory_pool.cpp:378-423): refuse when the
chunk would exceed `max_pool_size` over the current usage, else carve a
fresh aligned chunk into `blocks_per_chunk` blocks pushed one by one onto
the free-list head. -/
def expandPool (s : State) (pid : PoolId) : Bool × State :=
  let pool := getPool s pid
  let chunk_size := pool.block_size * pool.blocks_per_chunk
  if s.config.max_pool_size < s.stats.current_usage + chunk_size then (false, s)
  else if s.sys_fail then (false, s)
  else
    let base := s.next_addr
    let blocks := (List.range pool.blocks_per_chunk).map
      (fun i => MemoryBlock.mk (base + i * pool.block_size) pool.block_size true)
    let pool2 := { pool with
      free_list := blocks.reverse ++ pool.free_list,
      chunks := pool.chunks ++ [base] }
    (true, setPool { s with next_addr := base + chunk_size } pid pool2)

/-- First-fit extraction from the free list: the fast head check plus the
slow scan of `allocateFromPool` (memory_pool.cpp:261-300) amount to
removing the first free block large enough. -/
def extractFirstFit (l : List MemoryBlock) (size : Nat) :
    Option (MemoryBlock × List MemoryBlock) :=
  match l with
  | [] => none
  | b :: rest =>
    if b.is_free ∧ size ≤ b.size then some (b, rest)
    else
      match extractFirstFit rest size with
      | some bl => some (bl.1, b :: bl.2)
      | none => none

/-- `MemoryPool::allocateFromPool` (memory_pool.cpp:257-319). -/
def allocateFromPool (s : State) (pid : PoolId) (size : Nat) :
    Option Nat × State :=
  let pool := getPool s pid
  match extractFirstFit pool.free_list size with
  | some bl => (some bl.1.data, setPool s pid { pool with free_list := bl.2 })
  | none =>
    let ex := expandPool s pid
    if ex.1 then
      let pool2 := getPool ex.2 pid
      match pool2.free_list with
      | b :: rest =>
        if b.is_free then
          (some b.data, setPool ex.2 pid { pool2 with free_list := rest })
        else (none, ex.2)
      | [] => (none, ex.2)
    else (none, ex.2)

/-- `MemoryPool::selectPool` (memory_pool.cpp:485-496). -/
def selectPool (s : State) (size : Nat) : Option PoolId :=
  if size ≤ s.config.small_block_size then some PoolId.small
  else if size ≤ s.config.medium_block_size then some PoolId.medium
  else if size ≤ s.large_pool.block_size then some PoolId.large
  else none

/-- `MemoryPool::updateStatistics` (memory_pool.cpp:437-467). -/
def updateStatistics (s : State) (size : Nat) (is_allocation from_pool : Bool) :
    State :=
  if s.config.enable_statistics = false then s
  else if is_allocation then
    let new_usage := s.stats.current_usage + size
    { s with stats := { s.stats with
      allocation_count := s.stats.allocation_count + 1,
      total_allocated := s.stats.total_allocated + size,
      current_usage := new_usage,
      peak_usage := max s.stats.peak_usage new_usage,
      pool_hit_count :=
        if from_pool then s.stats.pool_hit_count + 1 else s.stats.pool_hit_count,
      system_alloc_count :=
        if from_pool then s.stats.system_alloc_count
        else s.stats.system_alloc_count + 1 } }
  else
    { s with stats := { s.stats with
      free_count := s.stats.free_count + 1,
      total_freed := s.stats.total_freed + size,
      current_usage := s.stats.current_usage - size } }

/-- `MemoryPool::recordPointerSource` (memory_pool.cpp:499-503). -/
def recordPointerSource (s : State) (ptr : Nat) (from_pool : Bool) (size : Nat) :
    State :=
  { s with pointer_sources := assocSet s.pointer_sources ptr (from_pool, size) }

/-- The bookkeeping tail of `allocate` (record provenance, statistics,
debug tracking) shared by the pool and system paths. -/
def finishAllocate (s : State) (ptr : Nat) (from_pool : Bool) (size : Nat) :
    AllocOutcome × State :=
  let s1 := recordPointerSource s ptr from_pool size
  let s2 := if s1.config.enable_statistics then
      updateStatistics s1 size true from_pool
    else s1
  let s3 := if s2.config.enable_debug then
      { s2 with allocated_pointers := s2.allocated_pointers ++ [ptr] }
    else s2
  (AllocOutcome.ptr ptr, s3)

/-- `MemoryPool::allocate` (memory_pool.cpp:56-104).  When the pool path
yields nothing the code calls `std::aligned_alloc` and, on null, **throws**
`std::bad_alloc` (memory_pool.cpp:85). -/
def allocate (s : State) (size alignment : Nat) : AllocOutcome × State :=
  if s.shutdown ∨ size = 0 then (AllocOutcome.nullResult, s)
  else
    let actual_alignment := if 0 < alignment then alignment else s.config.alignment
    let aligned_size := alignSize size actual_alignment
    let poolTry : Option Nat × State :=
      match selectPool s aligned_size with
      | some pid =>
        if aligned_size ≤ (getPool s pid).block_size then
          allocateFromPool s pid aligned_size
        else (none, s)
      | none => (none, s)
    match poolTry.1 with
    | some p0 =>
      let p :=
        if s.config.alignment < actual_alignment then alignPointer p0 actual_alignment
        else p0
      finishAllocate poolTry.2 p true size
    | none =>
      if poolTry.2.sys_fail then (AllocOutcome.badAllocThrown, poolTry.2)
      else
        let p := poolTry.2.next_addr
        finishAllocate { poolTry.2 with next_addr := poolTry.2.next_addr + aligned_size }
          p false size

/-- Which chunk of this pool contains the pointer (memory_pool.cpp:336-371). -/
def chunkContaining (pool : LayeredPool) (ptr : Nat) : Option Nat :=
  pool.chunks.find? (fun base =>
    base ≤ ptr ∧ ptr < base + pool.block_size * pool.blocks_per_chunk)

/-- The in-chunk branch of `deallocateToPool`: compute the block start and
prepend a fresh free node (`findMemoryBlock` always returns null,
memory_pool.cpp:505-509, so a new `MemoryBlock` is created). -/
def pushFreed (s : State) (pid : PoolId) (base ptr : Nat) : State :=
  let pool := getPool s pid
  let idx := (ptr - base) / pool.block_size
  let block_start := base + idx * pool.block_size
  setPool s pid { pool with
    free_list := MemoryBlock.mk block_start pool.block_size true :: pool.free_list }

/-- `MemoryPool::deallocateToPool` (memory_pool.cpp:321-376): scan the
pools in small/medium/large order for the owning chunk; a pointer in no
chunk falls through to `std::free`. -/
def deallocateToPool (s : State) (ptr : Nat) : State :=
  match chunkContaining s.small_pool ptr with
  | some base => pushFreed s PoolId.small base ptr
  | none =>
    match chunkContaining s.medium_pool ptr with
    | some base => pushFreed s PoolId.medium base ptr
    | none =>
      match chunkContaining s.large_pool ptr with
      | some base => pushFreed s PoolId.large base ptr
      | none => { s with freed_sys := s.freed_sys ++ [ptr] }

/-- `MemoryPool::deallocate` (memory_pool.cpp:106-143): look up and erase
the pointer's provenance; pool pointers go back to their pool, system and
unknown pointers go to `std::free`; unknown pointers update statistics with
size 0. -/
def deallocate (s : State) (ptr : Nat) : State :=
  if ptr = 0 ∨ s.shutdown then s
  else
    let s1 :=
      if s.config.enable_debug then
        { s with allocated_pointers := s.allocated_pointers.filter (· ≠ ptr) }
      else s
    match assocFind s1.pointer_sources ptr with
    | some fs =>
      let s2 := { s1 with pointer_sources := assocErase s1.pointer_sources ptr }
      let s3 :=
        if fs.1 then deallocateToPool s2 ptr
        else { s2 with freed_sys := s2.freed_sys ++ [ptr] }
      if s3.config.enable_statistics then updateStatistics s3 fs.2 false fs.1 else s3
    | none =>
      let s3 := { s1 with freed_sys := s1.freed_sys ++ [ptr] }
      if s3.config.enable_statistics then updateStatistics s3 0 false false else s3

/-- Construction (memory_pool.cpp:9-30): the three layered pools (small:
256 blocks/chunk, medium: 64, large: `medium_block_size * 16` byte blocks,
16 per chunk), then one pre-expanded chunk for the small pool. -/
def init (cfg : Config) : State :=
  let s0 : State :=
    ⟨cfg, Statistics.init,
      ⟨[], [], cfg.small_block_size, 256⟩,
      ⟨[], [], cfg.medium_block_size, 64⟩,
      ⟨[], [], cfg.medium_block_size * 16, 16⟩,
      [], [], [], 4096, false, false⟩
  (expandPool s0 PoolId.small).2

/-- `MemoryPool::getStatistics`. -/
def getStatistics (s : State) : StatisticsSnapshot :=
  ⟨s.stats.total_allocated, s.stats.total_freed, s.stats.current_usage,
    s.stats.peak_usage, s.stats.allocation_count, s.stats.free_count,
    s.stats.pool_hit_count, s.stats.system_alloc_count⟩

/-- Free-list integrity walk of one pool in `isHealthy`
(memory_pool.cpp:198-217): every node within the first 10000 must be free,
and reaching 10000 nodes is itself a failure. -/
def poolWalkOk (pool : LayeredPool) : Bool :=
  pool.free_list.length < 10000 ∧ pool.free_list.all (·.is_free)

/-- `MemoryPool::isHealthy` (memory_pool.cpp:182-220). -/
def isHealthy (s : State) : Bool :=
  if s.config.max_pool_size < s.stats.current_usage then false
  else if (8 : ℚ) / 10 < (getStatistics s).getFragmentationRate then false
  else poolWalkOk s.small_pool && poolWalkOk s.medium_pool && poolWalkOk s.large_pool

/-- The free byte intervals of all three pools' free lists. -/
def freeIntervals (s : State) : List (Nat × Nat) :=
  ((s.small_pool.free_list ++ s.medium_pool.free_list ++ s.large_pool.free_list).filter
    (·.is_free)).map (fun b => (b.data, b.size))

def insertByAddr (p : Nat × Nat) : List (Nat × Nat) → List (Nat × Nat)
  | [] => [p]
  | q :: rest =>
    if p.1 ≤ q.1 then p :: q :: rest else q :: insertByAddr p rest

def sortByAddr : List (Nat × Nat) → List (Nat × Nat)
  | [] => []
  | p :: rest => insertByAddr p (sortByAddr rest)

/-- Lengths of the maximal contiguous runs of an address-sorted, disjoint
interval list; `endAddr`/`len` carry the run being extended. -/
def mergeRunsAux : Nat → Nat → List (Nat × Nat) → List Nat
  | _, len, [] => [len]
  | endAddr, len, q :: rest =>
    if endAddr = q.1 then mergeRunsAux (q.1 + q.2) (len + q.2) rest
    else len :: mergeRunsAux (q.1 + q.2) q.2 rest

def mergeRuns : List (Nat × Nat) → List Nat
  | [] => []
  | p :: rest => mergeRunsAux (p.1 + p.2) p.2 rest

/-- Largest contiguous free run over all pools, in bytes. -/
def largestRun (s : State) : Nat :=
  (mergeRuns (sortByAddr (freeIntervals s))).foldl max 0

/-- Total free bytes over all pools' free lists. -/
def totalFreeBytes (s : State) : Nat :=
  (freeIntervals s).foldl (fun acc p => acc + p.2) 0

/-- Modelled from the spec: "Fragmentation rate is computed as `1 −
(largest contiguous free run / total free bytes)`" (§4.1).  This is the
formula the claim asserts the reported rate equals; the repository computes
something else, so this definition exists only for comparison. -/
def specFragmentationRate (s : State) : ℚ :=
  if totalFreeBytes s = 0 then 0
  else 1 - (largestRun s : ℚ) / (totalFreeBytes s : ℚ)

set_option maxRecDepth 10000 in
/-- C2 counterexample: allocate 64 bytes from a fresh default pool, then
free them.  The reported fragmentation rate is `1 − 0/64 = 1`, while the
spec's formula `1 − largest contiguous free run / total free bytes` gives
`1 − 262144/262144 = 0` (one fully free, contiguous 256 KiB chunk): the
statistics do not report the spec's formula. -/
theorem fragmentation_rate_not_spec_formula :
    (getStatistics (deallocate (allocate (init Config.default) 64 0).2
      265216)).getFragmentationRate = 1 ∧
    specFragmentationRate (deallocate (allocate (init Config.default) 64 0).2
      265216) = 0 ∧
    (getStatistics (deallocate (allocate (init Config.default) 64 0).2
      265216)).getFragmentationRate ≠
      specFragmentationRate (deallocate (allocate (init Config.default) 64 0).2
        265216) := by
  have hcur : (deallocate (allocate (init Config.default) 64 0).2
      265216).stats.current_usage = 0 := by decide
  have hpeak : (deallocate (allocate (init Config.default) 64 0).2
      265216).stats.peak_usage = 64 := by decide
  have htot : totalFreeBytes (deallocate (allocate (init Config.default) 64 0).2
      265216) = 262144 := by decide
  have hrun : largestRun (deallocate (allocate (init Config.default) 64 0).2
      265216) = 262144 := by decide
  have h1 : (getStatistics (deallocate (allocate (init Config.default) 64 0).2
      265216)).getFragmentationRate = 1 := by
    simp only [StatisticsSnapshot.getFragmentationRate, getStatistics, hcur, hpeak]
    norm_num
  have h2 : specFragmentationRate (deallocate (allocate (init Config.default) 64 0).2
      265216) = 0 := by
    simp only [specFragmentationRate, htot, hrun]
    norm_num
  exact ⟨h1, h2, by rw [h1, h2]; norm_num⟩

/-- C2 (amended): the reported fragmentation rate equals
`1 − current_usage / peak_usage` (0 when `peak_usage = 0`) — not the spec's
free-run formula — and `isHealthy()` returns false whenever this reported
rate exceeds 0.8 or the current usage exceeds the configured maximum pool
size. -/
theorem isHealthy_false_of_unhealthy (s : State)
    (h : (8 : ℚ) / 10 < (getStatistics s).getFragmentationRate ∨
      s.config.max_pool_size < s.stats.current_usage) :
    isHealthy s = false := by
  unfold isHealthy
  rcases h with h | h
  · by_cases hcur : s.config.max_pool_size < s.stats.current_usage
    · simp [hcur]
    · simp [hcur, h]
  · simp [h]

set_option maxRecDepth 10000 in
theorem isHealthy_false_of_unhealthy_witness :
    isHealthy (deallocate (allocate (init Config.default) 64 0).2 265216) = false := by
  apply isHealthy_false_of_unhealthy
  left
  have hcur : (deallocate (allocate (init Config.default) 64 0).2
      265216).stats.current_usage = 0 := by decide
  have hpeak : (deallocate (allocate (init Config.default) 64 0).2
      265216).stats.peak_usage = 64 := by decide
  simp only [StatisticsSnapshot.getFragmentationRate, getStatistics, hcur, hpeak]
  norm_num

set_option maxRecDepth 10000 in
/-- C3: with the system allocator failing and a 2 MiB request too large for
any pool class (the large class holds 1 MiB blocks), `allocate` throws
`std::bad_alloc` (memory_pool.cpp:85) instead of returning the null result
that the claim — and the function's own doc comment ("失败返回nullptr") —
promise. -/
theorem allocate_throws_on_system_failure :
    (allocate { init Config.default with sys_fail := true } 2097152 0).1 =
      AllocOutcome.badAllocThrown ∧
    (allocate { init Config.default with sys_fail := true } 2097152 0).1 ≠
      AllocOutcome.nullResult := by
  decide

set_option maxRecDepth 10000 in
/-- C6 counterexample: deallocating a pointer that no `allocate` produced
hands that pointer to the system deallocator (`std::free`,
memory_pool.cpp:136), against the claim that it "is not handed to any
deallocator". -/
theorem deallocate_unknown_calls_free :
    (deallocate (init Config.default) 777).freed_sys = [777] := by
  decide

/-- C6 (amended): for a pointer without a provenance record (never
allocated here, or already freed), `deallocate` leaves every pool free list
unchanged and routes the pointer to the system deallocator `std::free`;
with statistics enabled the free counter is incremented for a size-0 free
(total freed and current usage unchanged). -/
theorem deallocate_unknown_spec (s : State) (ptr : Nat) (hp : ptr ≠ 0)
    (hsd : s.shutdown = false)
    (hunk : assocFind s.pointer_sources ptr = none) :
    (deallocate s ptr).small_pool.free_list = s.small_pool.free_list ∧
    (deallocate s ptr).medium_pool.free_list = s.medium_pool.free_list ∧
    (deallocate s ptr).large_pool.free_list = s.large_pool.free_list ∧
    (deallocate s ptr).freed_sys = s.freed_sys ++ [ptr] ∧
    (s.config.enable_statistics = true →
      (deallocate s ptr).stats.free_count = s.stats.free_count + 1 ∧
      (deallocate s ptr).stats.total_freed = s.stats.total_freed ∧
      (deallocate s ptr).stats.current_usage = s.stats.current_usage) := by
  unfold deallocate
  by_cases hdbg : s.config.enable_debug <;>
    by_cases hstat : s.config.enable_statistics <;>
    simp [hp, hsd, hdbg, hstat, hunk, updateStatistics]

set_option maxRecDepth 10000 in
theorem deallocate_unknown_spec_witness :
    (deallocate (init Config.default) 777).freed_sys =
      (init Config.default).freed_sys ++ [777] ∧
    (deallocate (init Config.default) 777).small_pool.free_list =
      (init Config.default).small_pool.free_list := by
  have h := deallocate_unknown_spec (init Config.default) 777 (by decide) (by decide)
    (by decide)
  exact ⟨h.2.2.2.1, h.1⟩

end MemoryPool
